import Mathlib

/-!
Shallow embedding of the CBR phone-recommendation frontend
(MISBAHULLL/CBR-Rekomendasi-Pembelian-HP-).

Conventions of the embedding:
* JavaScript numbers are modelled as rationals (`ℚ`).
* A JS object used as a weight map is modelled as an association list of
  key/value pairs; `Object.values(w)` corresponds to `w.map Prod.snd`.
* Fallback field access such as `a.phone.Harga || a.phone.harga` (two
  spellings of the same column) is collapsed into a single record field.
-/

namespace CBR

/-- Result object of `validateWeights` (src/frontend/src/utils/helpers.js,
lines 109–124).  The Indonesian `message` string (built with `toFixed`)
is not referenced by any claim and is omitted from the record. -/
structure ValidationResult where
  isValid : Bool
  total : ℚ
  hasZero : Bool
  deriving Repr, DecidableEq

/-- Embedding of `validateWeights` from src/frontend/src/utils/helpers.js:
`total` is the `reduce`-sum of the object's values, the local `isValid`
requires `99 ≤ total ≤ 101`, `hasZero` detects a value strictly equal to
`0`, and the returned `isValid` conjoins the two conditions. -/
def validateWeights (weights : List (String × ℚ)) : ValidationResult :=
  let values := weights.map Prod.snd
  let total := values.foldl (fun sum val => sum + val) 0
  let isValid := decide (99 ≤ total) && decide (total ≤ 101)
  let hasZero := values.any (fun val => val == 0)
  { isValid := isValid && !hasZero, total := total, hasZero := hasZero }

/-- Folding addition over a list starting from `a` yields `a` plus the sum. -/
theorem foldl_add_eq_add_sum (l : List ℚ) (a : ℚ) :
    l.foldl (fun sum val => sum + val) a = a + l.sum := by
  induction l generalizing a with
  | nil => simp
  | cons x xs ih => simp [ih, add_assoc]

/-- Characterisation of the `isValid` flag, shared by several results. -/
theorem validateWeights_isValid_iff_aux (w : List (String × ℚ)) :
    (validateWeights w).isValid = true ↔
      (99 ≤ (w.map Prod.snd).sum ∧ (w.map Prod.snd).sum ≤ 101 ∧
        ∀ v ∈ w.map Prod.snd, v ≠ 0) := by
  simp only [validateWeights, foldl_add_eq_add_sum, zero_add,
    Bool.and_eq_true, Bool.not_eq_true', decide_eq_true_eq,
    List.any_eq_false, beq_iff_eq, and_assoc]

/-- C1: `validateWeights w` reports `isValid = true` iff the sum of the
values lies in `[99, 101]` and no value equals `0`; in particular it
rejects vectors summing to 90 or 110, rejects a vector containing a 0,
and accepts a zero-free vector summing to 100.2. -/
theorem validateWeights_isValid_iff :
    (∀ w : List (String × ℚ),
      (validateWeights w).isValid = true ↔
        (99 ≤ (w.map Prod.snd).sum ∧ (w.map Prod.snd).sum ≤ 101 ∧
          ∀ v ∈ w.map Prod.snd, v ≠ 0)) ∧
    (validateWeights [("harga", 45), ("ram", 45)]).isValid = false ∧
    (validateWeights [("harga", 55), ("ram", 55)]).isValid = false ∧
    (validateWeights [("harga", 100), ("ram", 0)]).isValid = false ∧
    (validateWeights [("harga", 50), ("ram", 50.2)]).isValid = true :=
  ⟨validateWeights_isValid_iff_aux, by norm_num [validateWeights],
    by norm_num [validateWeights], by norm_num [validateWeights],
    by norm_num [validateWeights]⟩

/-- C4 (counterexample): `validateWeights` only checks the sum and the
absence of exact zeros, so the vector `{a: 150, b: -50}` — which sums to
100 and has no zero — is reported valid although `150 > 100` and
`-50 < 0` both lie outside `(0, 100]`. -/
theorem validateWeights_range_counterexample :
    (validateWeights [("a", 150), ("b", -50)]).isValid = true ∧
    ¬ (∀ v ∈ ([("a", (150 : ℚ)), ("b", -50)].map Prod.snd), 0 < v ∧ v ≤ 100) := by
  constructor
  · norm_num [validateWeights]
  · intro h
    have := h (-50) (by simp)
    linarith [this.1]

/-- C4 (amended): a weight mapping reported valid by `validateWeights`
never contains a value equal to `0`; values outside `(0, 100]` (negative
values or values above 100) are not in general rejected. -/
theorem validateWeights_no_zero_when_valid (w : List (String × ℚ))
    (h : (validateWeights w).isValid = true) :
    ∀ v ∈ w.map Prod.snd, v ≠ 0 :=
  ((validateWeights_isValid_iff_aux w).mp h).2.2

/-- Witness for C4's amended theorem at the concrete input `{a: 100}`,
instantiated at the value `100` of that mapping. -/
theorem validateWeights_no_zero_when_valid_witness : (100 : ℚ) ≠ 0 :=
  validateWeights_no_zero_when_valid [("a", 100)] (by norm_num [validateWeights])
    100 (by simp)

/-- Slice of the Admin page's React state used by `saveWeights`
(src/frontend/src/pages/Results.jsx, Admin component): the editable
`weights` object and the `originalWeights` object kept for change
detection. -/
structure AdminState where
  weights : List (String × ℚ)
  originalWeights : List (String × ℚ)
  deriving Repr, DecidableEq

/-- Network calls the `saveWeights` handler can issue. -/
inductive APICall where
  | updateWeights (w : List (String × ℚ))
  deriving Repr, DecidableEq

/-- Embedding of the Admin page's `saveWeights` handler: when the
validation fails it shows a toast and returns (no API call, state kept);
otherwise it awaits `adminAPI.updateWeights(weights)` and, if the call
succeeds, sets `originalWeights` to the saved weights.  The returned pair
is the new state together with the list of API calls issued; `apiOk`
models whether the awaited network call succeeds. -/
def saveWeights (st : AdminState) (apiOk : Bool) : AdminState × List APICall :=
  if !(validateWeights st.weights).isValid then
    (st, [])
  else if apiOk then
    ({ st with originalWeights := st.weights }, [.updateWeights st.weights])
  else
    (st, [.updateWeights st.weights])

/-- C5: when `validateWeights` reports the current weights invalid,
`saveWeights` issues no `adminAPI.updateWeights` call and leaves the
whole state — in particular `originalWeights` — unchanged, whatever the
network would have answered. -/
theorem saveWeights_invalid_is_noop (st : AdminState) (apiOk : Bool)
    (h : (validateWeights st.weights).isValid = false) :
    (saveWeights st apiOk).2 = [] ∧
      (saveWeights st apiOk).1.originalWeights = st.originalWeights ∧
      saveWeights st apiOk = (st, []) := by
  simp [saveWeights, h]

/-- Witness for C5 at a concrete state whose weights sum to 90. -/
theorem saveWeights_invalid_is_noop_witness :
    (saveWeights ⟨[("harga", 45), ("ram", 45)], [("harga", 50), ("ram", 50)]⟩ true).2 = [] ∧
      (saveWeights ⟨[("harga", 45), ("ram", 45)], [("harga", 50), ("ram", 50)]⟩
        true).1.originalWeights = [("harga", 50), ("ram", 50)] ∧
      saveWeights ⟨[("harga", 45), ("ram", 45)], [("harga", 50), ("ram", 50)]⟩ true =
        (⟨[("harga", 45), ("ram", 45)], [("harga", 50), ("ram", 50)]⟩, []) :=
  saveWeights_invalid_is_noop ⟨[("harga", 45), ("ram", 45)], [("harga", 50), ("ram", 50)]⟩
    true (by norm_num [validateWeights])

/-- Modelled from the spec: the backend Similarity Converter is not part
of the frontend sources; the spec defines the conversion as
`similarity(distance) = 1 / (1 + distance)`. -/
def similarity (distance : ℚ) : ℚ := 1 / (1 + distance)

/-- C6: for every distance `d ≥ 0`, `similarity d` lies in `(0, 1]`,
equals `1` exactly when `d = 0`, and similarity is strictly decreasing in
the distance — it never reaches `0`. -/
theorem similarity_contract :
    (∀ d : ℚ, 0 ≤ d →
      0 < similarity d ∧ similarity d ≤ 1 ∧ (similarity d = 1 ↔ d = 0)) ∧
    (∀ d₁ d₂ : ℚ, 0 ≤ d₁ → d₁ < d₂ → similarity d₂ < similarity d₁) := by
  constructor
  · intro d hd
    have h1 : (0 : ℚ) < 1 + d := by linarith
    refine ⟨by rw [similarity]; exact div_pos one_pos h1, ?_, ?_⟩
    · rw [similarity, div_le_one h1]
      linarith
    · rw [similarity, div_eq_one_iff_eq (ne_of_gt h1)]
      constructor
      · intro h; linarith
      · intro h; rw [h]; ring
  · intro d₁ d₂ h₁ h₁₂
    have ha : (0 : ℚ) < 1 + d₁ := by linarith
    have hb : (0 : ℚ) < 1 + d₂ := by linarith
    rw [similarity, similarity]
    apply div_lt_div_of_pos_left one_pos ha
    linarith

/-- Witness for C6 at the concrete distances `2`, and `0 < 1`. -/
theorem similarity_contract_witness :
    (0 < similarity 2 ∧ similarity 2 ≤ 1 ∧ (similarity 2 = 1 ↔ (2 : ℚ) = 0)) ∧
      similarity 1 < similarity 0 :=
  ⟨similarity_contract.1 2 (by norm_num),
    similarity_contract.2 0 1 (by norm_num) (by norm_num)⟩

/-- Embedding of the highlights section of `PhoneCard`
(src/unnamed/part_000, lines 95–105): badges are rendered only when the
`highlights` prop is a non-empty list, and then exactly
`highlights.slice(0, 3)` is mapped to badge elements. -/
def phoneCardBadges (highlights : List String) : List String :=
  if highlights.length > 0 then highlights.take 3 else []

/-- C7: the rendered match-reason badges are exactly the first
`min 3 (length)` entries of the supplied list, in their original order;
never more than three badges are shown. -/
theorem phoneCardBadges_spec :
    ∀ highlights : List String,
      phoneCardBadges highlights = highlights.take 3 ∧
      (phoneCardBadges highlights).length = min 3 highlights.length ∧
      (phoneCardBadges highlights).length ≤ 3 := by
  intro highlights
  have h : phoneCardBadges highlights = highlights.take 3 := by
    cases highlights <;> simp [phoneCardBadges]
  refine ⟨h, ?_, ?_⟩
  · rw [h, List.length_take]
  · rw [h, List.length_take]
    exact min_le_left _ _

/-- A JavaScript value of one of the shapes `parseCameraResolution` is
called with: `null`, `undefined`, a (non-negative integer) number, or a
string. -/
inductive JSValue where
  | null
  | undefined
  | num (n : Nat)
  | str (s : String)
  deriving Repr, DecidableEq

/-- JS truthiness of the guard `if (!resolution) return 0`: `null`,
`undefined`, the number `0` and the empty string are falsy. -/
def JSValue.falsy : JSValue → Bool
  | .null => true
  | .undefined => true
  | .num n => n == 0
  | .str s => s == ""

/-- Result of `resolution.toString()` (only reached on truthy values). -/
def JSValue.toStr : JSValue → String
  | .null => "null"
  | .undefined => "undefined"
  | .num n => toString n
  | .str s => s

/-- Leftmost match of the regex `(\d+)`: the first maximal run of digit
characters of the character list, when one exists. -/
def firstDigitRun : List Char → Option (List Char)
  | [] => none
  | c :: cs =>
    if c.isDigit then some (c :: cs.takeWhile Char.isDigit)
    else firstDigitRun cs

/-- Value computed by `parseInt` on a non-empty all-digit string. -/
def digitsToNat (ds : List Char) : Nat :=
  ds.foldl (fun acc c => acc * 10 + (c.toNat - Char.toNat '0')) 0

/-- Embedding of `parseCameraResolution`
(src/frontend/src/utils/helpers.js, lines 100–104): falsy inputs yield
`0`; otherwise the first digit run of `toString()` of the input is
converted with `parseInt`, and the absence of any digit yields `0`. -/
def parseCameraResolution (resolution : JSValue) : Nat :=
  if resolution.falsy then 0
  else
    match firstDigitRun resolution.toStr.toList with
    | some ds => digitsToNat ds
    | none => 0

/-- A list without digit characters has no digit run. -/
theorem firstDigitRun_eq_none (l : List Char)
    (h : ∀ c ∈ l, c.isDigit = false) : firstDigitRun l = none := by
  induction l with
  | nil => rfl
  | cons c cs ih =>
    simp only [firstDigitRun, h c (by simp)]
    exact ih fun x hx => h x (by simp [hx])

/-- Characters without digits in front of a list do not change its first
digit run. -/
theorem firstDigitRun_append (p l : List Char)
    (h : ∀ c ∈ p, c.isDigit = false) :
    firstDigitRun (p ++ l) = firstDigitRun l := by
  induction p with
  | nil => rfl
  | cons c cs ih =>
    simp only [List.cons_append, firstDigitRun, h c (by simp)]
    exact ih fun x hx => h x (by simp [hx])

/-- The digit-prefix of `l ++ t` contains all of `l` when `l` is made of
digits. -/
theorem takeWhile_digits_append (l t : List Char)
    (h : ∀ c ∈ l, c.isDigit = true) :
    (l ++ t).takeWhile Char.isDigit = l ++ t.takeWhile Char.isDigit := by
  induction l with
  | nil => rfl
  | cons c cs ih =>
    simp only [List.cons_append, List.takeWhile_cons, h c (by simp), if_true]
    simp only [ih fun x hx => h x (by simp [hx])]

/-- A list whose head (if any) is not a digit has an empty digit-prefix. -/
theorem takeWhile_digits_nil (t : List Char)
    (h : ∀ c ∈ t.head?, c.isDigit = false) :
    t.takeWhile Char.isDigit = [] := by
  cases t with
  | nil => rfl
  | cons c cs => simp [List.takeWhile_cons, h c (by simp)]

/-- C8: `parseCameraResolution` is a total function into the
non-negative integers: every falsy input (null, undefined, 0, the empty
string) yields `0`, a string without digit characters yields `0`, and a
string decomposing as a digit-free block, then a maximal non-empty digit
run, then a remainder yields the integer value of that first digit run
(so '48MP' yields 48). -/
theorem parseCameraResolution_total :
    (∀ v : JSValue, v.falsy = true → parseCameraResolution v = 0) ∧
    (∀ s : String, (∀ c ∈ s.toList, c.isDigit = false) →
      parseCameraResolution (.str s) = 0) ∧
    (∀ (s : String) (p r t : List Char), s.toList = p ++ r ++ t →
      (∀ c ∈ p, c.isDigit = false) → (∀ c ∈ r, c.isDigit = true) →
      r ≠ [] → (∀ c ∈ t.head?, c.isDigit = false) →
      parseCameraResolution (.str s) = digitsToNat r) := by
  refine ⟨fun v hv => by simp [parseCameraResolution, hv], ?_, ?_⟩
  · intro s hs
    by_cases he : (JSValue.str s).falsy = true
    · simp [parseCameraResolution, he]
    · simp only [parseCameraResolution, he, if_false, JSValue.toStr]
      rw [firstDigitRun_eq_none s.toList hs]
      simp
  · intro s p r t hsplit hp hr hrne ht
    have hne : s.toList ≠ [] := by
      rw [hsplit, List.append_assoc]
      intro hcon
      exact hrne (List.append_eq_nil.mp ((List.append_eq_nil.mp hcon).2)).1
    have hfalsy : JSValue.falsy (.str s) = false := by
      simp only [JSValue.falsy, beq_eq_false_iff_ne, ne_eq]
      intro hcon
      exact hne (by rw [hcon]; rfl)
    obtain ⟨d, ds, rfl⟩ := List.exists_cons_of_ne_nil hrne
    simp only [parseCameraResolution, hfalsy, Bool.false_eq_true, if_false,
      JSValue.toStr, hsplit]
    rw [List.append_assoc, firstDigitRun_append p _ hp]
    simp only [List.cons_append, firstDigitRun, hr d (by simp), if_true]
    rw [List.append_eq,
      takeWhile_digits_append ds t fun x hx => hr x (by simp [hx]),
      takeWhile_digits_nil t ht, List.append_nil]

/-- Witness for C8: the string '48MP' parses to 48, a digit-free string
parses to 0, and the falsy value `null` parses to 0. -/
theorem parseCameraResolution_total_witness :
    parseCameraResolution (.str "48MP") = 48 ∧
      parseCameraResolution (.str "MP") = 0 ∧
      parseCameraResolution .null = 0 :=
  ⟨(parseCameraResolution_total.2.2 ("48MP") [] ['4', '8'] ['M', 'P'] rfl
      (by simp) (by decide) (by simp) (by decide)).trans (by decide),
    parseCameraResolution_total.2.1 ("MP") (by decide),
    parseCameraResolution_total.1 .null rfl⟩

/-- Phone fields read by the Results page sort comparators.  The JS
spelling fallbacks `Harga || harga` and
`Rating_pengguna || rating_pengguna || 0` (two spellings of one column)
are collapsed into one field each. -/
structure PhoneRec where
  harga : ℚ
  rating : ℚ
  deriving Repr, DecidableEq

/-- One entry of the `recommendations` array stored by the Results page. -/
structure Recommendation where
  phone : PhoneRec
  similarity_score : ℚ
  deriving Repr, DecidableEq

/-- Boolean order of the comparator selected by the `switch (sortBy)` in
src/frontend/src/pages/Results.jsx, lines 43–56: `sortLE sortBy a b`
holds exactly when the JS comparator returns a number `≤ 0` on `(a, b)`,
i.e. when the sort may place `a` before `b`.  Every string other than
the three explicit cases falls through to the default
similarity-descending comparator. -/
def sortLE (sortBy : String) (a b : Recommendation) : Bool :=
  match sortBy with
  | "price_asc" => decide (a.phone.harga ≤ b.phone.harga)
  | "price_desc" => decide (b.phone.harga ≤ a.phone.harga)
  | "rating" => decide (b.phone.rating ≤ a.phone.rating)
  | _ => decide (b.similarity_score ≤ a.similarity_score)

/-- Embedding of `sortedRecommendations`: the received array is copied
(`[...recommendations]`) and the copy is sorted with the comparator of
the active `sortBy`; the original array is left untouched. -/
def sortedRecommendations (recs : List Recommendation) (sortBy : String) :
    List Recommendation :=
  recs.mergeSort (sortLE sortBy)

/-- Transitivity of every comparator branch. -/
theorem sortLE_trans (sortBy : String) (a b c : Recommendation)
    (hab : sortLE sortBy a b = true) (hbc : sortLE sortBy b c = true) :
    sortLE sortBy a c = true := by
  unfold sortLE at *
  split at hab <;> split at hbc <;> simp_all <;> linarith

/-- Totality of every comparator branch. -/
theorem sortLE_total (sortBy : String) (a b : Recommendation) :
    sortLE sortBy a b || sortLE sortBy b a := by
  unfold sortLE
  split <;> simp only [Bool.or_eq_true, decide_eq_true_eq] <;> exact le_total _ _

/-- C9: for every received array and every `sortBy` value, the sorted
list is a permutation of the input (nothing added, dropped or
duplicated, and the input itself — being immutable here — is unchanged);
and under `sortBy = 'similarity'` (the default) the output is ordered by
non-increasing `similarity_score`. -/
theorem sortedRecommendations_spec :
    (∀ (recs : List Recommendation) (sortBy : String),
      (sortedRecommendations recs sortBy).Perm recs) ∧
    (∀ recs : List Recommendation,
      (sortedRecommendations recs ("similarity")).Pairwise
        fun a b => b.similarity_score ≤ a.similarity_score) := by
  constructor
  · intro recs sortBy
    exact List.mergeSort_perm recs (sortLE sortBy)
  · intro recs
    have h := List.sorted_mergeSort (sortLE_trans ("similarity"))
      (sortLE_total ("similarity")) recs
    refine h.imp fun hab => ?_
    simpa [sortLE] using hab

/-- Metrics object of an evaluation scenario (percentages). -/
structure Metrics where
  accuracy : ℚ
  «precision» : ℚ
  «recall» : ℚ
  f1_score : ℚ
  deriving Repr, DecidableEq, Inhabited

/-- Confusion-matrix object carried by a scenario. -/
structure ConfusionMatrixData where
  matrix : List (List ℕ)
  labels : List String
  tp : ℕ
  tn : ℕ
  fp : ℕ
  fn : ℕ
  deriving Repr, DecidableEq, Inhabited

/-- One scenario of the evaluation results. -/
structure ScenarioData where
  name : String
  train_size : ℕ
  test_size : ℕ
  metrics : Metrics
  confusion_matrix : ConfusionMatrixData
  deriving Repr, DecidableEq, Inhabited

/-- Top-level shape of the Evaluation page's results state. -/
structure EvalResults where
  success : Bool
  best_scenario : String
  scenarios : List ScenarioData
  deriving Repr, DecidableEq

/-- The single scenario embedded in `DEFAULT_RESULTS`
(src/unnamed/part_002, lines 41–67). -/
def defaultScenario : ScenarioData :=
  { name := "70-30"
    train_size := 700
    test_size := 300
    metrics := { accuracy := 76.0, «precision» := 75.96, «recall» := 76.0, f1_score := 75.74 }
    confusion_matrix :=
      { matrix := [[24, 8, 9], [7, 122, 17], [1, 30, 82]]
        labels := ["Gaming", "Photographer", "Daily"]
        tp := 228
        tn := 0
        fp := 72
        fn := 0 } }

/-- Embedding of the static `DEFAULT_RESULTS` constant of the Evaluation
page. -/
def DEFAULT_RESULTS : EvalResults :=
  { success := true, best_scenario := "70-30", scenarios := [defaultScenario] }

/-- One row of the embedded Classification Report table
(src/unnamed/part_002, lines 453–456). -/
structure ReportRow where
  label : String
  «precision» : ℚ
  «recall» : ℚ
  f1 : ℚ
  support : ℕ
  deriving Repr, DecidableEq

/-- The Classification Report rows embedded in the Evaluation page. -/
def classificationReport : List ReportRow :=
  [{ label := "Gaming", «precision» := 0.75, «recall» := 0.59, f1 := 0.66, support := 41 },
   { label := "Photographer", «precision» := 0.76, «recall» := 0.84, f1 := 0.80, support := 146 },
   { label := "Daily", «precision» := 0.76, «recall» := 0.73, f1 := 0.74, support := 113 }]

/-- Row sums of a matrix (per-class support, rows = actual class). -/
def rowSums (m : List (List ℕ)) : List ℕ := m.map List.sum

/-- Sum of all entries of a matrix. -/
def matTotal (m : List (List ℕ)) : ℕ := (m.map List.sum).sum

/-- Trace (sum of diagonal entries) of a matrix. -/
def matTrace (m : List (List ℕ)) : ℕ :=
  (m.enum.map fun p => (p.2.getD p.1 0)).sum

/-- C2: in the default 70-30 result, each confusion-matrix row sum
equals the support displayed for the corresponding class (41, 146, 113),
the nine entries sum to the testing size 300, and the trace 228 divided
by 300 equals the reported accuracy 76.0 % — a fraction lying in [0,1]. -/
theorem defaultResults_confusion_consistent :
    DEFAULT_RESULTS.scenarios = [defaultScenario] ∧
    rowSums defaultScenario.confusion_matrix.matrix =
      classificationReport.map ReportRow.support ∧
    classificationReport.map ReportRow.support = [41, 146, 113] ∧
    matTotal defaultScenario.confusion_matrix.matrix = defaultScenario.test_size ∧
    defaultScenario.test_size = 300 ∧
    matTrace defaultScenario.confusion_matrix.matrix = 228 ∧
    (228 : ℚ) / 300 = defaultScenario.metrics.accuracy / 100 ∧
    0 ≤ (228 : ℚ) / 300 ∧ (228 : ℚ) / 300 ≤ 1 := by
  refine ⟨rfl, by decide, by decide, by decide, rfl, by decide, ?_, by norm_num, by norm_num⟩
  norm_num [defaultScenario]

/-- The embedded 70-30 confusion matrix. -/
def defaultMatrix : List (List ℕ) := defaultScenario.confusion_matrix.matrix

/-- Diagonal entry `i` of a matrix. -/
def diagEl (m : List (List ℕ)) (i : ℕ) : ℕ := (m.getD i []).getD i 0

/-- Column sum `j` of a matrix. -/
def colSum (m : List (List ℕ)) (j : ℕ) : ℕ := (m.map fun row => row.getD j 0).sum

/-- Row sum `i` of a matrix (the support of class `i`). -/
def rowSum (m : List (List ℕ)) (i : ℕ) : ℕ := (m.getD i []).sum

/-- Modelled from the spec: per-class precision is the diagonal entry
divided by the column sum, and a class with zero column sum yields 0
rather than a division error. -/
def specPrecision (m : List (List ℕ)) (i : ℕ) : ℚ :=
  if colSum m i = 0 then 0 else (diagEl m i : ℚ) / (colSum m i : ℚ)

/-- Modelled from the spec: per-class recall is the diagonal entry
divided by the row sum, 0 when the support is 0. -/
def specRecall (m : List (List ℕ)) (i : ℕ) : ℚ :=
  if rowSum m i = 0 then 0 else (diagEl m i : ℚ) / (rowSum m i : ℚ)

/-- Modelled from the spec: F1 is the harmonic mean of precision and
recall, 0 when both are 0. -/
def specF1 (m : List (List ℕ)) (i : ℕ) : ℚ :=
  if specPrecision m i + specRecall m i = 0 then 0
  else 2 * specPrecision m i * specRecall m i / (specPrecision m i + specRecall m i)

/-- Modelled from the spec: the weighted average weights each class's
metric by its support (row sum) divided by the total count. -/
def specWeighted (f : List (List ℕ) → ℕ → ℚ) (m : List (List ℕ)) : ℚ :=
  ((List.range m.length).map fun i => (rowSum m i : ℚ) * f m i).sum / (matTotal m : ℚ)

/-- Rounding to two decimal places, halves upward (display rounding). -/
def roundTo2 (q : ℚ) : ℚ := (⌊q * 100 + 1 / 2⌋ : ℚ) / 100

/-- Rounding of a fraction to a percentage with two decimals. -/
def roundPct2 (q : ℚ) : ℚ := (⌊q * 10000 + 1 / 2⌋ : ℚ) / 100

/-- C3: evaluating the spec's metric formulas on the embedded confusion
matrix in exact rational arithmetic and rounding to the displayed
precision reproduces every figure of the embedded Classification Report
(per class: precision, recall, F1 and support) and the embedded summary
metrics precision 75.96, recall 76.0 and F1 75.74. -/
theorem classificationReport_matches_spec_formulas :
    classificationReport.map ReportRow.«precision» =
      [roundTo2 (specPrecision defaultMatrix 0), roundTo2 (specPrecision defaultMatrix 1),
        roundTo2 (specPrecision defaultMatrix 2)] ∧
    classificationReport.map ReportRow.«recall» =
      [roundTo2 (specRecall defaultMatrix 0), roundTo2 (specRecall defaultMatrix 1),
        roundTo2 (specRecall defaultMatrix 2)] ∧
    classificationReport.map ReportRow.f1 =
      [roundTo2 (specF1 defaultMatrix 0), roundTo2 (specF1 defaultMatrix 1),
        roundTo2 (specF1 defaultMatrix 2)] ∧
    classificationReport.map ReportRow.support =
      [rowSum defaultMatrix 0, rowSum defaultMatrix 1, rowSum defaultMatrix 2] ∧
    defaultScenario.metrics.«precision» = roundPct2 (specWeighted specPrecision defaultMatrix) ∧
    defaultScenario.metrics.«recall» = roundPct2 (specWeighted specRecall defaultMatrix) ∧
    defaultScenario.metrics.f1_score = roundPct2 (specWeighted specF1 defaultMatrix) := by
  have hp0 : specPrecision defaultMatrix 0 = 24 / 32 := by
    norm_num [specPrecision, colSum, diagEl, defaultMatrix, defaultScenario]
  have hp1 : specPrecision defaultMatrix 1 = 122 / 160 := by
    norm_num [specPrecision, colSum, diagEl, defaultMatrix, defaultScenario]
  have hp2 : specPrecision defaultMatrix 2 = 82 / 108 := by
    norm_num [specPrecision, colSum, diagEl, defaultMatrix, defaultScenario]
  have hr0 : specRecall defaultMatrix 0 = 24 / 41 := by
    norm_num [specRecall, rowSum, diagEl, defaultMatrix, defaultScenario]
  have hr1 : specRecall defaultMatrix 1 = 122 / 146 := by
    norm_num [specRecall, rowSum, diagEl, defaultMatrix, defaultScenario]
  have hr2 : specRecall defaultMatrix 2 = 82 / 113 := by
    norm_num [specRecall, rowSum, diagEl, defaultMatrix, defaultScenario]
  have hf0 : specF1 defaultMatrix 0 = 48 / 73 := by
    rw [specF1, hp0, hr0]; norm_num
  have hf1 : specF1 defaultMatrix 1 = 122 / 153 := by
    rw [specF1, hp1, hr1]; norm_num
  have hf2 : specF1 defaultMatrix 2 = 164 / 221 := by
    rw [specF1, hp2, hr2]; norm_num
  have hlen : defaultMatrix.length = 3 := by norm_num [defaultMatrix, defaultScenario]
  have htot : matTotal defaultMatrix = 300 := by decide
  have hw : ∀ f : List (List ℕ) → ℕ → ℚ, specWeighted f defaultMatrix =
      ((rowSum defaultMatrix 0 : ℚ) * f defaultMatrix 0 +
        ((rowSum defaultMatrix 1 : ℚ) * f defaultMatrix 1 +
          ((rowSum defaultMatrix 2 : ℚ) * f defaultMatrix 2 + 0))) / 300 := by
    intro f
    rw [specWeighted, hlen, htot]
    norm_num [List.range_succ]
  have hs0 : rowSum defaultMatrix 0 = 41 := by decide
  have hs1 : rowSum defaultMatrix 1 = 146 := by decide
  have hs2 : rowSum defaultMatrix 2 = 113 := by decide
  refine ⟨?_, ?_, ?_, ?_, ?_, ?_, ?_⟩
  · rw [show classificationReport.map ReportRow.«precision» =
      [0.75, 0.76, 0.76] from rfl, hp0, hp1, hp2]
    norm_num [roundTo2]
  · rw [show classificationReport.map ReportRow.«recall» =
      [0.59, 0.84, 0.73] from rfl, hr0, hr1, hr2]
    norm_num [roundTo2]
  · rw [show classificationReport.map ReportRow.f1 =
      [0.66, 0.80, 0.74] from rfl, hf0, hf1, hf2]
    norm_num [roundTo2]
  · rw [hs0, hs1, hs2]
    decide
  · rw [hw specPrecision, hp0, hp1, hp2, hs0, hs1, hs2]
    norm_num [roundPct2, defaultScenario]
  · rw [hw specRecall, hr0, hr1, hr2, hs0, hs1, hs2]
    norm_num [roundPct2, defaultScenario]
  · rw [hw specF1, hf0, hf1, hf2, hs0, hs1, hs2]
    norm_num [roundPct2, defaultScenario]

/-- One entry of the array returned by `evaluationAPI.getResults()`. -/
structure APIResultEntry where
  scenario : String
  metrics : Metrics
  deriving Repr, DecidableEq

/-- Response of `evaluationAPI.getResults()`. -/
structure APIResponse where
  results : List APIResultEntry
  deriving Repr, DecidableEq

/-- Embedding of `loadResults` (src/unnamed/part_002, lines 78–114): a
non-empty response is transformed into scenarios whose `train_size`,
`test_size` and `confusion_matrix` are hard-coded constants, only `name`
and `metrics` being read from the response; an empty response falls back
to `DEFAULT_RESULTS`. -/
def loadResults (data : APIResponse) : EvalResults :=
  match data.results with
  | [] => DEFAULT_RESULTS
  | r0 :: rest =>
    { success := true
      best_scenario := r0.scenario
      scenarios := (r0 :: rest).map fun r =>
        { name := r.scenario
          train_size := 700
          test_size := 300
          metrics := r.metrics
          confusion_matrix :=
            { matrix := [[24, 8, 9], [7, 122, 17], [1, 30, 82]]
              labels := ["Gaming", "Photographer", "Daily"]
              tp := 228
              tn := 0
              fp := 72
              fn := 0 } } }

/-- Embedding of the render-time fallback (src/unnamed/part_002, line
243): `scenario?.confusion_matrix?.matrix || [[24,8,9],[7,122,17],[1,30,82]]`. -/
def renderedConfusionMatrix (scenario : Option ScenarioData) : List (List ℕ) :=
  match scenario with
  | some s => s.confusion_matrix.matrix
  | none => [[24, 8, 9], [7, 122, 17], [1, 30, 82]]

/-- C10 (counterexample): it is not true that only the `metrics` field of
the produced scenarios varies with the response — the scenario `name` is
also read from the response.  Two responses with equal metrics but
scenario names 'A' and 'B' produce different scenario lists. -/
theorem loadResults_only_metrics_counterexample :
    (loadResults ⟨[⟨"A", ⟨76, 76, 76, 76⟩⟩]⟩).scenarios.map ScenarioData.metrics =
      (loadResults ⟨[⟨"B", ⟨76, 76, 76, 76⟩⟩]⟩).scenarios.map ScenarioData.metrics ∧
    (loadResults ⟨[⟨"A", ⟨76, 76, 76, 76⟩⟩]⟩).scenarios ≠
      (loadResults ⟨[⟨"B", ⟨76, 76, 76, 76⟩⟩]⟩).scenarios := by
  constructor
  · rfl
  · intro h
    have := congrArg (fun l => (l.map ScenarioData.name)) h
    simp [loadResults] at this

/-- C10 (amended): for any two non-empty responses, every scenario
produced by `loadResults` carries the same hard-coded confusion matrix
`[[24,8,9],[7,122,17],[1,30,82]]` with `tp = 228` and `fp = 72` (and the
constant sizes 700/300) — only the `metrics` and `name` fields vary with
the response — and the render-time fallback uses that same constant
matrix; the fetched results never influence the displayed matrix. -/
theorem loadResults_matrix_constant (r₁ r₂ : APIResponse)
    (h₁ : r₁.results ≠ []) (h₂ : r₂.results ≠ []) :
    (∀ sc ∈ (loadResults r₁).scenarios,
      sc.confusion_matrix.matrix = [[24, 8, 9], [7, 122, 17], [1, 30, 82]] ∧
      sc.confusion_matrix.tp = 228 ∧ sc.confusion_matrix.fp = 72 ∧
      sc.train_size = 700 ∧ sc.test_size = 300) ∧
    (∀ sc₁ ∈ (loadResults r₁).scenarios, ∀ sc₂ ∈ (loadResults r₂).scenarios,
      sc₁.confusion_matrix = sc₂.confusion_matrix) ∧
    renderedConfusionMatrix none = [[24, 8, 9], [7, 122, 17], [1, 30, 82]] := by
  have key : ∀ r : APIResponse, r.results ≠ [] → ∀ sc ∈ (loadResults r).scenarios,
      sc.confusion_matrix = ⟨[[24, 8, 9], [7, 122, 17], [1, 30, 82]],
        ["Gaming", "Photographer", "Daily"], 228, 0, 72, 0⟩ ∧
      sc.train_size = 700 ∧ sc.test_size = 300 := by
    intro r hr sc hsc
    obtain ⟨a, as, ha⟩ := List.exists_cons_of_ne_nil hr
    rw [loadResults] at hsc
    rw [ha] at hsc
    simp only [List.mem_map] at hsc
    obtain ⟨e, _, rfl⟩ := hsc
    exact ⟨rfl, rfl, rfl⟩
  refine ⟨fun sc hsc => ?_, fun sc₁ h₁' sc₂ h₂' => ?_, rfl⟩
  · obtain ⟨hcm, ht, hs⟩ := key r₁ h₁ sc hsc
    rw [hcm]
    exact ⟨rfl, rfl, rfl, ht, hs⟩
  · rw [(key r₁ h₁ sc₁ h₁').1, (key r₂ h₂ sc₂ h₂').1]

/-- Witness for C10's amended theorem at two concrete one-entry
responses with different names and metrics, instantiated at the first
scenario of each. -/
theorem loadResults_matrix_constant_witness :
    (loadResults ⟨[⟨"70-30", ⟨76, 76, 76, 76⟩⟩]⟩).scenarios.headI.confusion_matrix =
      (loadResults ⟨[⟨"80-20", ⟨80, 81, 82, 83⟩⟩]⟩).scenarios.headI.confusion_matrix ∧
    (loadResults ⟨[⟨"70-30", ⟨76, 76, 76, 76⟩⟩]⟩).scenarios.headI.confusion_matrix.matrix =
      [[24, 8, 9], [7, 122, 17], [1, 30, 82]] ∧
    renderedConfusionMatrix none = [[24, 8, 9], [7, 122, 17], [1, 30, 82]] := by
  have T := loadResults_matrix_constant ⟨[⟨"70-30", ⟨76, 76, 76, 76⟩⟩]⟩
    ⟨[⟨"80-20", ⟨80, 81, 82, 83⟩⟩]⟩ (by simp) (by simp)
  exact ⟨T.2.1 _ (by simp [loadResults]) _ (by simp [loadResults]),
    (T.1 _ (by simp [loadResults])).1, T.2.2⟩

end CBR
